import Mathlib

/-!
Shallow embedding of the ledger-graphql server core: the per-request
authenticator (the Apollo `context` callback), the authorization guard
`requireAuth`, the GraphQL resolvers (`signin`, `token`, and the guarded
transaction/reason operations), and the `TransactionDS` query builders.

External collaborators (the jsonwebtoken library, the Prisma-backed data
sources, the SMTP sender, the email-validator predicate) are passed in as
parameters or modelled explicitly where their behaviour matters; the token
data source, whose implementation is not part of the repository snapshot, is
modelled from the spec (its definitions say so in their doc comments).
JavaScript truthiness of possibly-absent values is modelled explicitly, with
`none` standing for `null`/`undefined`.
-/

/-- Decoded JWT claims used by this server: an identity email and an absolute
expiry in seconds since the epoch. -/
structure JwtPayload where
  email : String
  exp : Int
deriving DecidableEq, Repr

/-- A signed JWT as produced by the external jsonwebtoken collaborator:
`jwt.sign(payload, secret, { algorithm })` is modelled as packaging the claims
with the signing material, so that decoding a signed token is projection. -/
structure SignedJwt where
  payload : JwtPayload
  secret : String
  algorithm : String
deriving DecidableEq, Repr

/-- The external `jwt.sign`. -/
def jwtSign (payload : JwtPayload) (secret : String) (algorithm : String) : SignedJwt :=
  { payload := payload, secret := secret, algorithm := algorithm }

/-- The configuration options consumed by the core. Times are in minutes;
`authorized_emails` is the optional allow-list (`none` when not configured). -/
structure AppConfig where
  authorized_emails : Option (List String)
  signin_key_available_time : Int
  signin_token_available_time : Int
  signin_jwt_secret : String
  signin_jwt_algorithm : String
deriving DecidableEq, Repr

/-- A persisted sign-in key record. `createdAt` is in milliseconds since the
epoch, matching JavaScript `Date` comparison semantics. -/
structure SignInKeyRecord where
  key : String
  email : String
  createdAt : Int
deriving DecidableEq, Repr

/-- The per-request resolver context (`CustomContext`). `requireAuth` reads an
`isSignin` field from it; JavaScript yields `undefined` for a field an object
does not carry, modelled as `Option Bool` with `none` for an absent field. -/
structure CustomContext where
  token : String
  tokenPayload : Option JwtPayload
  appConfig : AppConfig
  isSignin : Option Bool := none
deriving DecidableEq, Repr

/-- JavaScript truthiness of a possibly-absent boolean (`undefined` is falsy). -/
def jsTruthyOptBool : Option Bool → Bool
  | none => false
  | some b => b

/-- JavaScript truthiness of a possibly-absent string (absent and `""` falsy). -/
def jsTruthyOptStr : Option String → Bool
  | none => false
  | some s => s != ""

/-- JavaScript truthiness of a possibly-absent number (absent and `0` falsy). -/
def jsTruthyOptNum : Option Int → Bool
  | none => false
  | some n => n != 0

/-- Core of JavaScript `String.prototype.replace` with a plain-string pattern
and empty replacement: remove the first occurrence of `pat`, scanning left to
right; leave the list unchanged when `pat` does not occur. -/
def replaceFirstDrop (pat : List Char) : List Char → List Char
  | [] => []
  | c :: rest =>
    if pat.isPrefixOf (c :: rest) then (c :: rest).drop pat.length
    else c :: replaceFirstDrop pat rest

/-- JavaScript `s.replace(pat, "")` for a plain-string `pat`: only the first
occurrence is removed. -/
def jsReplaceEmpty (s pat : String) : String :=
  ⟨replaceFirstDrop pat.data s.data⟩

/-- Whether `pat` occurs as a contiguous sublist. -/
def hasSubstr (pat : List Char) : List Char → Bool
  | [] => pat.isEmpty
  | c :: rest => pat.isPrefixOf (c :: rest) || hasSubstr pat rest

/-- JavaScript `Math.round(ms / 1000)` for an integer count of milliseconds:
round half toward positive infinity. -/
def mathRoundDivThousand (ms : Int) : Int :=
  Int.fdiv (ms + 500) 1000

/-- Modelled from the spec: the Token Store operation
`getRecordByKey(key) → record | null` (`tokenDs.getRecordByKey`; the token
data source implementation is missing from the snapshot): look the sign-in
key record up by its unique key. -/
def getRecordByKey (store : List SignInKeyRecord) (key : String) : Option SignInKeyRecord :=
  store.find? (fun r => r.key == key)

/-- The most recent record of a list, by `createdAt`. -/
def latestOf : List SignInKeyRecord → Option SignInKeyRecord
  | [] => none
  | r :: rest =>
    match latestOf rest with
    | none => some r
    | some b => if b.createdAt ≤ r.createdAt then some r else some b

/-- Modelled from the spec: the Token Store operation
`getLatestActiveRecord(email, sinceCutoff) → record | null`
(`tokenDs.getLatestActiveRecord`; implementation missing from the snapshot):
the most recent sign-in key for `email` whose `createdAt` is at or after the
cutoff. -/
def getLatestActiveRecord (store : List SignInKeyRecord) (email : String)
    (lastSeen : Int) : Option SignInKeyRecord :=
  latestOf (store.filter (fun r => r.email == email && decide (lastSeen ≤ r.createdAt)))

/-- Modelled from the spec: the Token Store operation `isRevoked(token) → bool`
(`tokenDs.isRevoke`; implementation missing from the snapshot): whether the
raw token string matches a revocation record. -/
def isRevoke (revoked : List String) (token : String) : Bool :=
  revoked.contains token

/-- Split a character list at every occurrence of `sep`. -/
def splitOnChar (sep : Char) : List Char → List (List Char)
  | [] => [[]]
  | c :: rest =>
    let r := splitOnChar sep rest
    if c == sep then [] :: r
    else
      match r with
      | [] => [[c]]
      | p :: ps => (c :: p) :: ps

/-- Modelled from the spec: syntactic email validation (the external
email-validator collaborator, `emailValidator.validate`): exactly one `@`,
a nonempty local part of at most 64 characters, an address part of at most
255 characters, and a dot-separated domain with at least two nonempty labels
whose final label has at least two characters. -/
def validateEmailModel (email : String) : Bool :=
  match splitOnChar '@' email.data with
  | [account, address] =>
    account.length != 0 && decide (account.length ≤ 64) && decide (address.length ≤ 255) &&
    (let parts := splitOnChar '.' address
     decide (2 ≤ parts.length) && parts.all (fun p => p.length != 0) &&
     decide (2 ≤ (parts.getLastD []).length))
  | _ => false

/-- The error kinds thrown by the resolver layer: `AuthenticationError` and
`ApolloError`, each carrying its message. -/
inductive ResolverError where
  | authenticationError (msg : String)
  | apolloError (msg : String)
deriving DecidableEq, Repr

/-- The Apollo `context` callback from the server entry point: extract the
bearer token from the `authorization` header with `replace`, attempt the
revocation check and JWT verification with every failure caught and logged,
and return the request context. `verify` stands for the external
`jwt.verify`, which either returns the decoded claims or throws. The returned
object carries `token`, `tokenPayload` and `appConfig` only, so `isSignin`
keeps its absent default. -/
def context (verify : String → String → Except String JwtPayload)
    (revoked : List String) (Config : AppConfig)
    (authorization : Option String) : CustomContext :=
  let token := jsReplaceEmpty (authorization.getD "") "Bearer "
  let tokenPayload : Option JwtPayload :=
    if isRevoke revoked token then none
    else if token != "" then
      match verify token Config.signin_jwt_secret with
      | Except.ok p => some p
      | Except.error _ => none
    else none
  { token := token, tokenPayload := tokenPayload, appConfig := Config }

/-- The authorization guard from the resolver module: destructure `isSignin`
from the context and throw `AuthenticationError` when it is falsy. -/
def requireAuth (context : CustomContext) : Except ResolverError Unit :=
  if !jsTruthyOptBool context.isSignin then
    Except.error (ResolverError.authenticationError "sign-in to continue")
  else Except.ok ()

/-- A ledger transaction row as the resolvers see it. -/
structure TransactionModel where
  id : Int
  amount : Int
  date : Int
  note : Option String
  reasonId : Int
deriving DecidableEq, Repr

/-- A reason row; `transactions` mirrors the possibly-absent relation loaded
by `createReason` (`reason.transactions?.[0]` in the source). -/
structure ReasonModel where
  id : Int
  text : String
  transactions : Option (List TransactionModel) := none
deriving DecidableEq, Repr

/-- The fields of a transaction created alongside a new reason. -/
structure TransactionSeed where
  amount : Int
  date : Int
  note : Option String
deriving DecidableEq, Repr

/-- Arguments of the `createTransaction` mutation. -/
structure CreateTransactionArgs where
  reasonText : String
  amount : Int
  date : Int
  note : Option String
deriving DecidableEq, Repr

/-- Arguments of the `updateTransaction` mutation. -/
structure UpdateTransactionArgs where
  id : Int
  reasonText : Option String
  amount : Option Int
  date : Option Int
  note : Option String
deriving DecidableEq, Repr

/-- Arguments of the `updateReason` mutation. -/
structure UpdateReasonArgs where
  id : Int
  text : Option String
deriving DecidableEq, Repr

/-- Arguments forwarded unchanged by the `getTransactions` query resolver. -/
structure GetTransactionsArgs where
  fromDate : Option Int
  toDate : Option Int
  fromAmount : Option Int
  toAmount : Option Int
  reason : Option Int
  offset : Option Int
  limit : Option Int
deriving DecidableEq, Repr

/-- The data sources injected into every resolver call. The Prisma-backed
reason/transaction/daily-spend sources are external collaborators; the
guarded resolvers defer to them wholesale, so their operations are abstract
response functions here. -/
structure DataSources where
  getReasons : List ReasonModel
  getReasonById : Int → Option ReasonModel
  getReasonByText : String → Option ReasonModel
  createReason : String → List TransactionSeed → ReasonModel
  createTransaction : CreateTransactionArgs → Int → TransactionModel
  updateTransaction : UpdateTransactionArgs → Option Int → TransactionModel
  deleteTransaction : Int → TransactionModel
  updateReason : UpdateReasonArgs → ReasonModel
  getTransaction : Int → Option TransactionModel
  getTransactionsList : GetTransactionsArgs → List TransactionModel
  read : List (Int × Int)

/-- `Query.getReasons`: guard, then return every reason. -/
def getReasons (context : CustomContext) (ds : DataSources) :
    Except ResolverError (List ReasonModel) := do
  requireAuth context
  pure ds.getReasons

/-- `Query.getTransaction`: guard, then look one transaction up. -/
def getTransaction (context : CustomContext) (ds : DataSources) (id : Int) :
    Except ResolverError (Option TransactionModel) := do
  requireAuth context
  pure (ds.getTransaction id)

/-- `Query.getTransactions`: guard, then forward the filter arguments. -/
def getTransactions (context : CustomContext) (ds : DataSources)
    (args : GetTransactionsArgs) : Except ResolverError (List TransactionModel) := do
  requireAuth context
  pure (ds.getTransactionsList args)

/-- `Query.getDailyBalance`: guard, then read the daily-spend source. -/
def getDailyBalance (context : CustomContext) (ds : DataSources) :
    Except ResolverError (List (Int × Int)) := do
  requireAuth context
  pure ds.read

/-- The `Transaction.reason` field resolver: guard, then resolve the reason
row, failing with `ApolloError` when it is missing. -/
def transactionReason (trans : TransactionModel) (context : CustomContext)
    (ds : DataSources) : Except ResolverError ReasonModel := do
  requireAuth context
  match ds.getReasonById trans.reasonId with
  | none =>
    Except.error (ResolverError.apolloError
      ("Reason with ID = " ++ toString trans.reasonId ++ " doesn\x27t exist."))
  | some reason => pure reason

/-- `Mutation.createTransaction`: guard; reuse an existing reason by text, or
create the reason together with the transaction and return that transaction. -/
def createTransaction (context : CustomContext) (ds : DataSources)
    (args : CreateTransactionArgs) : Except ResolverError TransactionModel := do
  requireAuth context
  match ds.getReasonByText args.reasonText with
  | some createdReason => pure (ds.createTransaction args createdReason.id)
  | none =>
    let reason := ds.createReason args.reasonText
      [{ amount := args.amount, date := args.date, note := args.note }]
    match (reason.transactions.getD []).head? with
    | none => Except.error (ResolverError.apolloError "Couldn\x27t create transaction")
    | some t => pure t

/-- `Mutation.updateTransaction`: guard; resolve or create the reason when a
truthy `reasonText` is given, then update. -/
def updateTransaction (context : CustomContext) (ds : DataSources)
    (args : UpdateTransactionArgs) : Except ResolverError TransactionModel := do
  requireAuth context
  let reasonId : Option Int :=
    if jsTruthyOptStr args.reasonText then
      let rt := args.reasonText.getD ""
      match ds.getReasonByText rt with
      | some reason => some reason.id
      | none => some (ds.createReason rt []).id
    else none
  pure (ds.updateTransaction args reasonId)

/-- `Mutation.deleteTransaction`: guard, delete, return `true`. -/
def deleteTransaction (context : CustomContext) (ds : DataSources) (id : Int) :
    Except ResolverError Bool := do
  requireAuth context
  let _ := ds.deleteTransaction id
  pure true

/-- `Mutation.createReason`: guard, then create. -/
def createReason (context : CustomContext) (ds : DataSources) (text : String) :
    Except ResolverError ReasonModel := do
  requireAuth context
  pure (ds.createReason text [])

/-- `Mutation.updateReason`: guard, then update. -/
def updateReason (context : CustomContext) (ds : DataSources)
    (args : UpdateReasonArgs) : Except ResolverError ReasonModel := do
  requireAuth context
  pure (ds.updateReason args)

/-- The allow-list guard condition of `signin`: a truthy (present, nonzero)
`authorized_emails?.length` together with a falsy `?.includes(email)`. -/
def authorizedEmailsBlock (appConfig : AppConfig) (email : String) : Bool :=
  (match appConfig.authorized_emails with
   | none => false
   | some l => l.length != 0) &&
  !(match appConfig.authorized_emails with
    | none => false
    | some l => l.contains email)

/-- The `signin` mutation resolver. External collaborators are explicit:
`validate` is `emailValidator.validate`, `now` the current time in
milliseconds, `freshKey` the UUID produced by `uuidv4()`. `lastSeen` is
`new Date()` moved back by the configured window via `setMinutes`, i.e. the
window in minutes times 60000 ms. The result is the returned outcome string,
the store after any `tokenDs.create`, and the mails dispatched by
`smtpDs.send`. -/
def signin (validate : String → Bool) (context : CustomContext)
    (store : List SignInKeyRecord) (now : Int) (freshKey : String)
    (email : String) : String × List SignInKeyRecord × List (String × String) :=
  if !(validate email) then ("invalid email address", store, [])
  else
    let appConfig := context.appConfig
    if authorizedEmailsBlock appConfig email then
      ("the email address isn\x27t allowed to sign in", store, [])
    else
      let lastSeen := now - appConfig.signin_key_available_time * 60000
      match getLatestActiveRecord store email lastSeen with
      | some _ =>
        ("an instruction has been sent to the email address, please follow that email to sign in.",
          store, [])
      | none =>
        ("sent", store ++ [{ key := freshKey, email := email, createdAt := now }],
          [(email, freshKey)])

/-- The `token` mutation resolver: redeem a sign-in key for a signed JWT.
`nowMs` is the current time in milliseconds (serving both as the `new Date()`
against which the expiry cutoff is computed via `setMinutes` and as the
`Date.now()` feeding the `exp` claim). The resolver only reads the store
(`tokenDs.getRecordByKey`), so the returned store is the input store. -/
def token (context : CustomContext) (store : List SignInKeyRecord)
    (nowMs : Int) (key : String) :
    Except ResolverError SignedJwt × List SignInKeyRecord :=
  let appConfig := context.appConfig
  let record := getRecordByKey store key
  let expire := nowMs - appConfig.signin_key_available_time * 60000
  match record with
  | none =>
    (Except.error (ResolverError.apolloError "Sign in key didn\x27t exist or expired."), store)
  | some r =>
    if r.createdAt ≤ expire then
      (Except.error (ResolverError.apolloError "Sign in key didn\x27t exist or expired."), store)
    else
      let expiresIn := mathRoundDivThousand nowMs + appConfig.signin_token_available_time * 60
      (Except.ok (jwtSign { email := r.email, exp := expiresIn }
        appConfig.signin_jwt_secret appConfig.signin_jwt_algorithm), store)

/-- Prisma `DateTimeFilter` fragment built by the where builders. -/
structure DateTimeFilter where
  gte : Option Int := none
  lte : Option Int := none
deriving DecidableEq, Repr

/-- Prisma `DecimalFilter` fragment built by the where builders. -/
structure DecimalFilter where
  gte : Option Int := none
  lte : Option Int := none
deriving DecidableEq, Repr

/-- Prisma `TransactionWhereInput`: each absent member leaves the
corresponding condition out of the query. -/
structure TransactionWhereInput where
  date : Option DateTimeFilter := none
  amount : Option DecimalFilter := none
  reasonId : Option Int := none
deriving DecidableEq, Repr

/-- The Prisma `findMany` query assembled by `TransactionDS.getTransactions`;
the constant `orderBy` (date descending) and `select` clauses are invariant
and not recorded. -/
structure TransactionFindManyArgs where
  skip : Int
  take : Int
  whereClause : TransactionWhereInput
deriving DecidableEq, Repr

namespace TransactionDS

/-- `TransactionDS.getTransactions`: build the `findMany` query. A JavaScript
`if (x)` guard on a `Maybe<number>` passes only for a present nonzero number,
and on a `Maybe<Date>` for any present date object. -/
def getTransactions (fromDate toDate : Option Int)
    (fromAmount toAmount reason : Option Int) (offset limit : Int) :
    TransactionFindManyArgs :=
  let w : TransactionWhereInput := {}
  let w := if fromDate.isSome then
      { w with date := some { (w.date.getD {}) with gte := fromDate } } else w
  let w := if toDate.isSome then
      { w with date := some { (w.date.getD {}) with lte := toDate } } else w
  let w := if jsTruthyOptNum fromAmount then
      { w with amount := some { (w.amount.getD {}) with gte := fromAmount } } else w
  let w := if jsTruthyOptNum toAmount then
      { w with amount := some { (w.amount.getD {}) with lte := toAmount } } else w
  let w := if jsTruthyOptNum reason then { w with reasonId := reason } else w
  { skip := offset, take := limit, whereClause := w }

/-- `TransactionDS.countTransactions`: build the `count` where clause with the
same guards as `getTransactions`. -/
def countTransactions (fromDate toDate : Option Int)
    (fromAmount toAmount reason : Option Int) : TransactionWhereInput :=
  let w : TransactionWhereInput := {}
  let w := if fromDate.isSome then
      { w with date := some { (w.date.getD {}) with gte := fromDate } } else w
  let w := if toDate.isSome then
      { w with date := some { (w.date.getD {}) with lte := toDate } } else w
  let w := if jsTruthyOptNum fromAmount then
      { w with amount := some { (w.amount.getD {}) with gte := fromAmount } } else w
  let w := if jsTruthyOptNum toAmount then
      { w with amount := some { (w.amount.getD {}) with lte := toAmount } } else w
  let w := if jsTruthyOptNum reason then { w with reasonId := reason } else w
  w

end TransactionDS

/-- A sample configuration used for concrete evaluations: a 10-minute key
window, a 60-minute token lifetime, no allow-list. -/
def sampleConfig : AppConfig :=
  { authorized_emails := none
  , signin_key_available_time := 10
  , signin_token_available_time := 60
  , signin_jwt_secret := "secret"
  , signin_jwt_algorithm := "HS256" }

/-- `sampleConfig` with the allow-list configured to a single other address. -/
def allowListConfig : AppConfig :=
  { sampleConfig with authorized_emails := some ["other@example.com"] }

/-- A sample request context over `sampleConfig`. -/
def sampleContext : CustomContext :=
  { token := "", tokenPayload := none, appConfig := sampleConfig }

/-- A sample request context over `allowListConfig`. -/
def allowListContext : CustomContext :=
  { token := "", tokenPayload := none, appConfig := allowListConfig }

/-- A sample stored sign-in key record. -/
def sampleKeyRecord : SignInKeyRecord :=
  { key := "k", email := "user@example.com", createdAt := 0 }

/-- A sample data-source bundle with inert responses. -/
def sampleDataSources : DataSources :=
  { getReasons := []
  , getReasonById := fun _ => none
  , getReasonByText := fun _ => none
  , createReason := fun text _ => { id := 1, text := text }
  , createTransaction := fun args rid =>
      { id := 1, amount := args.amount, date := args.date, note := args.note, reasonId := rid }
  , updateTransaction := fun args _ =>
      { id := args.id, amount := 0, date := 0, note := none, reasonId := 1 }
  , deleteTransaction := fun id =>
      { id := id, amount := 0, date := 0, note := none, reasonId := 1 }
  , updateReason := fun args => { id := args.id, text := "" }
  , getTransaction := fun _ => none
  , getTransactionsList := fun _ => []
  , read := [] }

/-- Binding after an error keeps the error. -/
theorem except_error_bind {ε α β : Type} (e : ε) (f : α → Except ε β) :
    (Except.error e >>= f : Except ε β) = Except.error e := rfl

/-- On a falsy signed-in flag the guard throws `AuthenticationError`. -/
theorem requireAuth_error_of_falsy (ctx : CustomContext)
    (h : jsTruthyOptBool ctx.isSignin = false) :
    requireAuth ctx = Except.error (ResolverError.authenticationError "sign-in to continue") := by
  simp [requireAuth, h]

/-- Claim C1: the spec says the per-request AuthContext carries
`isSignedIn = (tokenPayload != null)`, but the `context` callback never sets a
signed-in field on any input; in particular, on a request whose bearer token
verifies successfully the payload is present while `requireAuth`, reading the
absent `isSignin` field, still rejects the context. -/
theorem context_never_sets_isSignin :
    (∀ verify revoked cfg authorization,
      (context verify revoked cfg authorization).isSignin = none) ∧
    (context (fun _ _ => Except.ok { email := "user@example.com", exp := 2000000000 })
        [] sampleConfig (some "Bearer tok")).tokenPayload =
      some { email := "user@example.com", exp := 2000000000 } ∧
    requireAuth (context (fun _ _ => Except.ok { email := "user@example.com", exp := 2000000000 })
        [] sampleConfig (some "Bearer tok")) =
      Except.error (ResolverError.authenticationError "sign-in to continue") :=
  ⟨fun _ _ _ _ => rfl, by decide, rfl⟩

/-- Claim C2: `requireAuth` throws `AuthenticationError` on a falsy signed-in
flag and is a no-op on a true one; each of the ten resolvers touching
transaction or reason data fails exactly that way, whatever the data sources
answer, when the context is not signed in; `signin` and `token` ignore the
signed-in flag entirely. -/
theorem requireAuth_guards_all_operations (ctx : CustomContext) (ds : DataSources)
    (h : jsTruthyOptBool ctx.isSignin = false) :
    requireAuth ctx = Except.error (ResolverError.authenticationError "sign-in to continue") ∧
    (∀ ctx', jsTruthyOptBool ctx'.isSignin = true → requireAuth ctx' = Except.ok ()) ∧
    getReasons ctx ds =
      Except.error (ResolverError.authenticationError "sign-in to continue") ∧
    (∀ id, getTransaction ctx ds id =
      Except.error (ResolverError.authenticationError "sign-in to continue")) ∧
    (∀ args, getTransactions ctx ds args =
      Except.error (ResolverError.authenticationError "sign-in to continue")) ∧
    getDailyBalance ctx ds =
      Except.error (ResolverError.authenticationError "sign-in to continue") ∧
    (∀ trans, transactionReason trans ctx ds =
      Except.error (ResolverError.authenticationError "sign-in to continue")) ∧
    (∀ args, createTransaction ctx ds args =
      Except.error (ResolverError.authenticationError "sign-in to continue")) ∧
    (∀ args, updateTransaction ctx ds args =
      Except.error (ResolverError.authenticationError "sign-in to continue")) ∧
    (∀ id, deleteTransaction ctx ds id =
      Except.error (ResolverError.authenticationError "sign-in to continue")) ∧
    (∀ text, createReason ctx ds text =
      Except.error (ResolverError.authenticationError "sign-in to continue")) ∧
    (∀ args, updateReason ctx ds args =
      Except.error (ResolverError.authenticationError "sign-in to continue")) ∧
    (∀ b validate store now freshKey email,
      signin validate { ctx with isSignin := b } store now freshKey email =
        signin validate ctx store now freshKey email) ∧
    (∀ b store nowMs key,
      token { ctx with isSignin := b } store nowMs key = token ctx store nowMs key) := by
  have he := requireAuth_error_of_falsy ctx h
  refine ⟨he, ?_, ?_, ?_, ?_, ?_, ?_, ?_, ?_, ?_, ?_, ?_, ?_, ?_⟩
  · intro ctx' h'
    simp [requireAuth, h']
  · simp [getReasons, he, except_error_bind]
  · intro id
    simp [getTransaction, he, except_error_bind]
  · intro args
    simp [getTransactions, he, except_error_bind]
  · simp [getDailyBalance, he, except_error_bind]
  · intro trans
    simp [transactionReason, he, except_error_bind]
  · intro args
    simp [createTransaction, he, except_error_bind]
  · intro args
    simp [updateTransaction, he, except_error_bind]
  · intro id
    simp [deleteTransaction, he, except_error_bind]
  · intro text
    simp [createReason, he, except_error_bind]
  · intro args
    simp [updateReason, he, except_error_bind]
  · intro b validate store now freshKey email
    rfl
  · intro b store nowMs key
    rfl

/-- Witness for `requireAuth_guards_all_operations` at the sample context and
inert data sources. -/
theorem requireAuth_guards_all_operations_witness :
    jsTruthyOptBool sampleContext.isSignin = false ∧
    requireAuth sampleContext =
      Except.error (ResolverError.authenticationError "sign-in to continue") :=
  ⟨rfl, (requireAuth_guards_all_operations sampleContext sampleDataSources rfl).1⟩

/-- Claim C3: `token` fails — with the ApolloError realising the spec error
`InvalidOrExpiredKey` — exactly when the key is unknown to the store or the
record was created at or before the cutoff (now minus the configured window in
minutes); in particular a record created exactly at the cutoff is already
expired. -/
theorem token_invalid_or_expired_iff (ctx : CustomContext) (store : List SignInKeyRecord)
    (nowMs : Int) (key : String) :
    (token ctx store nowMs key).1 =
        Except.error (ResolverError.apolloError "Sign in key didn\x27t exist or expired.") ↔
      (getRecordByKey store key = none ∨
        ∃ r, getRecordByKey store key = some r ∧
          r.createdAt ≤ nowMs - ctx.appConfig.signin_key_available_time * 60000) := by
  cases hrec : getRecordByKey store key with
  | none => simp [token, hrec]
  | some r =>
    by_cases hc : r.createdAt ≤ nowMs - ctx.appConfig.signin_key_available_time * 60000
    · simp [token, hrec, hc]
    · simp [token, hrec, hc]

/-- Witness for `token_invalid_or_expired_iff`: a record created exactly at
the cutoff (10 minutes before now) is rejected. -/
theorem token_invalid_or_expired_iff_witness :
    (token sampleContext [{ key := "k", email := "user@example.com", createdAt := -600000 }]
        0 "k").1 =
      Except.error (ResolverError.apolloError "Sign in key didn\x27t exist or expired.") :=
  (token_invalid_or_expired_iff sampleContext
      [{ key := "k", email := "user@example.com", createdAt := -600000 }] 0 "k").mpr
    (Or.inr ⟨{ key := "k", email := "user@example.com", createdAt := -600000 }, rfl, by decide⟩)

/-- Claim C4: for a key whose record is inside the validity window, `token`
returns a JWT signed with the configured secret and algorithm, whose decoded
`email` claim is the record email and whose `exp` claim is the issuance time
in seconds (the rounded millisecond clock) plus the configured lifetime in
minutes times 60. -/
theorem token_issues_signed_jwt (ctx : CustomContext) (store : List SignInKeyRecord)
    (nowMs : Int) (key : String) (r : SignInKeyRecord)
    (hr : getRecordByKey store key = some r)
    (hw : nowMs - ctx.appConfig.signin_key_available_time * 60000 < r.createdAt) :
    (token ctx store nowMs key).1 =
      Except.ok
        { payload :=
            { email := r.email,
              exp := mathRoundDivThousand nowMs +
                ctx.appConfig.signin_token_available_time * 60 },
          secret := ctx.appConfig.signin_jwt_secret,
          algorithm := ctx.appConfig.signin_jwt_algorithm } := by
  have hc : ¬ r.createdAt ≤ nowMs - ctx.appConfig.signin_key_available_time * 60000 :=
    not_le.mpr hw
  simp [token, hr, hc, jwtSign]

/-- Witness for `token_issues_signed_jwt`: a fresh key redeemed one second
after creation yields the expected claims. -/
theorem token_issues_signed_jwt_witness :
    (token sampleContext [sampleKeyRecord] 1000 "k").1 =
      Except.ok
        { payload := { email := "user@example.com", exp := 3601 },
          secret := "secret", algorithm := "HS256" } :=
  (token_issues_signed_jwt sampleContext [sampleKeyRecord] 1000 "k" sampleKeyRecord rfl
      (by decide)).trans rfl

/-- Claim C6: `token` performs no store writes — redemption returns the store
unchanged — so a key still inside its window can be redeemed again, and each
redemption carries a fresh expiry computed from its own issuance time. -/
theorem token_redemption_reusable (ctx : CustomContext) (store : List SignInKeyRecord)
    (now1 now2 : Int) (key : String) (r : SignInKeyRecord)
    (hr : getRecordByKey store key = some r)
    (h1 : now1 - ctx.appConfig.signin_key_available_time * 60000 < r.createdAt)
    (h2 : now2 - ctx.appConfig.signin_key_available_time * 60000 < r.createdAt) :
    (token ctx store now1 key).2 = store ∧
    (token ctx (token ctx store now1 key).2 now2 key).1 =
      Except.ok
        { payload :=
            { email := r.email,
              exp := mathRoundDivThousand now2 +
                ctx.appConfig.signin_token_available_time * 60 },
          secret := ctx.appConfig.signin_jwt_secret,
          algorithm := ctx.appConfig.signin_jwt_algorithm } ∧
    (token ctx store now1 key).1 =
      Except.ok
        { payload :=
            { email := r.email,
              exp := mathRoundDivThousand now1 +
                ctx.appConfig.signin_token_available_time * 60 },
          secret := ctx.appConfig.signin_jwt_secret,
          algorithm := ctx.appConfig.signin_jwt_algorithm } := by
  have hc1 : ¬ r.createdAt ≤ now1 - ctx.appConfig.signin_key_available_time * 60000 :=
    not_le.mpr h1
  have hc2 : ¬ r.createdAt ≤ now2 - ctx.appConfig.signin_key_available_time * 60000 :=
    not_le.mpr h2
  have hsnd : (token ctx store now1 key).2 = store := by
    simp [token, hr, hc1]
  refine ⟨hsnd, ?_, ?_⟩
  · rw [hsnd]
    simp [token, hr, hc2, jwtSign]
  · simp [token, hr, hc1, jwtSign]

/-- Witness for `token_redemption_reusable`: the same key redeemed at one and
two seconds after creation leaves the store unchanged and yields expiries one
second apart. -/
theorem token_redemption_reusable_witness :
    (token sampleContext [sampleKeyRecord] 1000 "k").2 = [sampleKeyRecord] ∧
    (token sampleContext (token sampleContext [sampleKeyRecord] 1000 "k").2 2000 "k").1 =
      Except.ok
        { payload := { email := "user@example.com", exp := 3602 },
          secret := "secret", algorithm := "HS256" } :=
  ⟨(token_redemption_reusable sampleContext [sampleKeyRecord] 1000 2000 "k" sampleKeyRecord
      rfl (by decide) (by decide)).1,
   ((token_redemption_reusable sampleContext [sampleKeyRecord] 1000 2000 "k" sampleKeyRecord
      rfl (by decide) (by decide)).2.1).trans rfl⟩

/-- `latestOf` of a nonempty list is some record. -/
theorem latestOf_ne_none (l : List SignInKeyRecord) (h : l ≠ []) : latestOf l ≠ none := by
  cases l with
  | nil => exact absurd rfl h
  | cons r rest =>
    unfold latestOf
    cases latestOf rest with
    | none => simp
    | some b => by_cases hb : b.createdAt ≤ r.createdAt <;> simp [hb]

/-- Claim C5 counterexample: even with a live key in the store (created at the
current instant, inside the 10-minute window), a `signin` for an email
rejected by the allow-list returns the disallowed outcome, not the throttled
one — the allow-list check precedes the throttle. -/
theorem signin_throttle_claim_counterexample :
    allowListContext.appConfig.authorized_emails = some ["other@example.com"] ∧
    (0 : Int) - allowListContext.appConfig.signin_key_available_time * 60000 ≤ 0 ∧
    (signin validateEmailModel allowListContext
        [{ key := "k0", email := "user@example.com", createdAt := 0 }] 0 "k1"
        "user@example.com").1 =
      "the email address isn\x27t allowed to sign in" ∧
    "the email address isn\x27t allowed to sign in" ≠
      "an instruction has been sent to the email address, please follow that email to sign in." :=
  ⟨rfl, by decide, by decide, by decide⟩

/-- Claim C5 (amended): provided the email passes syntactic validation and the
allow-list guard, a stored sign-in key for it with `createdAt` at or after the
cutoff (now minus the configured window in minutes) makes `signin` return the
throttled outcome, create no record and send no mail. -/
theorem signin_throttles_live_key (validate : String → Bool) (ctx : CustomContext)
    (store : List SignInKeyRecord) (now : Int) (freshKey : String) (email : String)
    (r : SignInKeyRecord)
    (hv : validate email = true)
    (ha : authorizedEmailsBlock ctx.appConfig email = false)
    (hr : r ∈ store) (he : r.email = email)
    (hw : now - ctx.appConfig.signin_key_available_time * 60000 ≤ r.createdAt) :
    signin validate ctx store now freshKey email =
      ("an instruction has been sent to the email address, please follow that email to sign in.",
        store, []) := by
  have hmem : r ∈ store.filter
      (fun q => q.email == email &&
        decide (now - ctx.appConfig.signin_key_available_time * 60000 ≤ q.createdAt)) := by
    refine List.mem_filter.mpr ⟨hr, ?_⟩
    simp [he, hw]
  have hsome : getLatestActiveRecord store email
      (now - ctx.appConfig.signin_key_available_time * 60000) ≠ none := by
    unfold getLatestActiveRecord
    exact latestOf_ne_none _ (List.ne_nil_of_mem hmem)
  cases hg : getLatestActiveRecord store email
      (now - ctx.appConfig.signin_key_available_time * 60000) with
  | none => exact absurd hg hsome
  | some q => simp [signin, hv, ha, hg]

/-- Witness for `signin_throttles_live_key`: a second `signin` for the sample
email, with its key created at the current instant, is throttled. -/
theorem signin_throttles_live_key_witness :
    signin validateEmailModel sampleContext [sampleKeyRecord] 0 "k1" "user@example.com" =
      ("an instruction has been sent to the email address, please follow that email to sign in.",
        [sampleKeyRecord], []) :=
  signin_throttles_live_key validateEmailModel sampleContext [sampleKeyRecord] 0 "k1"
    "user@example.com" sampleKeyRecord (by decide) rfl (by decide) rfl (by decide)

/-- Claim C7: the `context` callback never surfaces a failure: whenever the
extracted token is empty, or revoked, or the verifier fails on it, the
resulting context has no payload and counts as not signed in — in particular
a revoked token yields a signed-out context even under a verifier that would
accept it. -/
theorem context_swallows_failures
    (verify : String → String → Except String JwtPayload)
    (revoked : List String) (cfg : AppConfig) (authorization : Option String)
    (h : (context verify revoked cfg authorization).token = "" ∨
      isRevoke revoked ((context verify revoked cfg authorization).token) = true ∨
      ∃ e, verify ((context verify revoked cfg authorization).token) cfg.signin_jwt_secret =
        Except.error e) :
    (context verify revoked cfg authorization).tokenPayload = none ∧
    jsTruthyOptBool (context verify revoked cfg authorization).isSignin = false := by
  refine ⟨?_, rfl⟩
  have htok : (context verify revoked cfg authorization).token =
      jsReplaceEmpty (authorization.getD "") "Bearer " := rfl
  rw [htok] at h
  show (if isRevoke revoked (jsReplaceEmpty (authorization.getD "") "Bearer ") then none
    else if (jsReplaceEmpty (authorization.getD "") "Bearer ") != "" then
      match verify (jsReplaceEmpty (authorization.getD "") "Bearer ") cfg.signin_jwt_secret with
      | Except.ok p => some p
      | Except.error _ => none
    else none) = none
  rcases h with h | h | ⟨e, he⟩
  · simp [h]
  · simp [h]
  · rw [he]
    by_cases hrev : isRevoke revoked (jsReplaceEmpty (authorization.getD "") "Bearer ") <;>
      simp [hrev]

/-- Witness for `context_swallows_failures`: a revoked token leaves the
payload absent even though the verifier would accept it. -/
theorem context_swallows_failures_witness :
    isRevoke ["tok"]
      ((context (fun _ _ => Except.ok { email := "user@example.com", exp := 2000000000 })
        ["tok"] sampleConfig (some "Bearer tok")).token) = true ∧
    (context (fun _ _ => Except.ok { email := "user@example.com", exp := 2000000000 })
        ["tok"] sampleConfig (some "Bearer tok")).tokenPayload = none :=
  ⟨by decide,
   (context_swallows_failures
      (fun _ _ => Except.ok { email := "user@example.com", exp := 2000000000 })
      ["tok"] sampleConfig (some "Bearer tok") (Or.inr (Or.inl (by decide)))).1⟩

/-- Claim C8 counterexample: the syntactic-validity check precedes the
allow-list check, so a malformed email outside the nonempty allow-list gets
the invalid-email outcome, not the disallowed one. -/
theorem signin_allowlist_claim_counterexample :
    allowListContext.appConfig.authorized_emails = some ["other@example.com"] ∧
    (["other@example.com"].contains "plainaddress") = false ∧
    signin validateEmailModel allowListContext [] 0 "k1" "plainaddress" =
      ("invalid email address", [], []) ∧
    "invalid email address" ≠ "the email address isn\x27t allowed to sign in" :=
  ⟨rfl, by decide, by decide, by decide⟩

/-- Claim C8 (amended): for a syntactically valid email, a configured nonempty
allow-list that does not contain it makes `signin` return the disallowed
outcome, with no store writes and no mail. -/
theorem signin_disallowed_email (validate : String → Bool) (ctx : CustomContext)
    (store : List SignInKeyRecord) (now : Int) (freshKey : String) (email : String)
    (l : List String)
    (hv : validate email = true)
    (hl : ctx.appConfig.authorized_emails = some l)
    (hne : l ≠ [])
    (hmem : l.contains email = false) :
    signin validate ctx store now freshKey email =
      ("the email address isn\x27t allowed to sign in", store, []) := by
  have hb : authorizedEmailsBlock ctx.appConfig email = true := by
    cases l with
    | nil => exact absurd rfl hne
    | cons a as =>
      simp at hmem
      simp [authorizedEmailsBlock, hl, hmem]
  simp [signin, hv, hb]

/-- Witness for `signin_disallowed_email`: the sample address against an
allow-list holding only the other address. -/
theorem signin_disallowed_email_witness :
    signin validateEmailModel allowListContext [] 0 "k1" "user@example.com" =
      ("the email address isn\x27t allowed to sign in", [], []) :=
  signin_disallowed_email validateEmailModel allowListContext [] 0 "k1" "user@example.com"
    ["other@example.com"] (by decide) rfl (by decide) (by decide)

/-- A list is a boolean prefix of itself followed by anything. -/
theorem isPrefixOf_append_self (l t : List Char) : l.isPrefixOf (l ++ t) = true := by
  induction l with
  | nil => simp [List.isPrefixOf]
  | cons c cs ih => simp [List.isPrefixOf, ih]

/-- Removing the first occurrence from `pat ++ rest` removes the leading
`pat`. -/
theorem replaceFirstDrop_append (pat rest : List Char) (h : pat ≠ []) :
    replaceFirstDrop pat (pat ++ rest) = rest := by
  cases pat with
  | nil => exact absurd rfl h
  | cons c cs =>
    have hp : (c :: cs).isPrefixOf (c :: (cs ++ rest)) = true :=
      isPrefixOf_append_self (c :: cs) rest
    show replaceFirstDrop (c :: cs) (c :: (cs ++ rest)) = rest
    simp only [replaceFirstDrop, hp, if_true, List.length_cons, List.drop_succ_cons]
    exact List.drop_left cs rest

/-- When `pat` does not occur, `replaceFirstDrop` changes nothing. -/
theorem replaceFirstDrop_of_no_substr (pat s : List Char) (h : hasSubstr pat s = false) :
    replaceFirstDrop pat s = s := by
  induction s with
  | nil => rfl
  | cons c rest ih =>
    unfold hasSubstr at h
    simp only [Bool.or_eq_false_iff] at h
    simp [replaceFirstDrop, h.1, ih h.2]

/-- Claim C9 counterexample: `replace` removes the first occurrence of
"Bearer " anywhere in the header value, not only a leading prefix, so a
header value that does not start with "Bearer " is not passed through
whole. -/
theorem context_token_extraction_counterexample :
    ("Bearer ".data.isPrefixOf "NotBearer abc".data) = false ∧
    (context (fun _ _ => Except.error "bad") [] sampleConfig (some "NotBearer abc")).token =
      "Notabc" ∧
    "Notabc" ≠ "NotBearer abc" :=
  ⟨by decide, by decide, by decide⟩

/-- Claim C9 (amended): the extracted token is the header value with the
first occurrence of the substring "Bearer " removed: a value starting with
"Bearer " loses exactly that prefix, a value in which "Bearer " does not
occur is passed through whole, and an absent header yields the empty
string. -/
theorem context_token_extraction
    (verify : String → String → Except String JwtPayload)
    (revoked : List String) (cfg : AppConfig) :
    (∀ rest : String,
      (context verify revoked cfg (some ("Bearer " ++ rest))).token = rest) ∧
    (∀ v : String, hasSubstr "Bearer ".data v.data = false →
      (context verify revoked cfg (some v)).token = v) ∧
    (context verify revoked cfg none).token = "" := by
  refine ⟨?_, ?_, rfl⟩
  · intro rest
    cases rest with
    | mk l =>
      show String.mk (replaceFirstDrop "Bearer ".data ("Bearer ".data ++ l)) = String.mk l
      rw [replaceFirstDrop_append _ _ (by decide)]
  · intro v hv
    cases v with
    | mk l =>
      show String.mk (replaceFirstDrop "Bearer ".data l) = String.mk l
      rw [replaceFirstDrop_of_no_substr _ _ hv]

/-- Witness for `context_token_extraction`: a plain value passes through, a
"Bearer "-prefixed one is stripped. -/
theorem context_token_extraction_witness :
    hasSubstr "Bearer ".data "abc".data = false ∧
    (context (fun _ _ => Except.error "bad") [] sampleConfig (some "abc")).token = "abc" ∧
    (context (fun _ _ => Except.error "bad") [] sampleConfig
        (some ("Bearer " ++ "xyz"))).token = "xyz" :=
  ⟨by decide,
   (context_token_extraction (fun _ _ => Except.error "bad") [] sampleConfig).2.1 "abc"
     (by decide),
   (context_token_extraction (fun _ _ => Except.error "bad") [] sampleConfig).1 "xyz"⟩

/-- Claim C10: a zero amount bound or zero reason id is falsy in the
JavaScript guards of both query builders, so the corresponding where
condition is omitted and the built query coincides with the one built from an
absent filter. -/
theorem zero_filter_args_treated_as_absent
    (fromDate toDate fromAmount toAmount reason : Option Int) (offset limit : Int) :
    (TransactionDS.getTransactions fromDate toDate (some 0) toAmount reason offset limit =
      TransactionDS.getTransactions fromDate toDate none toAmount reason offset limit) ∧
    (TransactionDS.getTransactions fromDate toDate fromAmount (some 0) reason offset limit =
      TransactionDS.getTransactions fromDate toDate fromAmount none reason offset limit) ∧
    (TransactionDS.getTransactions fromDate toDate fromAmount toAmount (some 0) offset limit =
      TransactionDS.getTransactions fromDate toDate fromAmount toAmount none offset limit) ∧
    (TransactionDS.countTransactions fromDate toDate (some 0) toAmount reason =
      TransactionDS.countTransactions fromDate toDate none toAmount reason) ∧
    (TransactionDS.countTransactions fromDate toDate fromAmount (some 0) reason =
      TransactionDS.countTransactions fromDate toDate fromAmount none reason) ∧
    (TransactionDS.countTransactions fromDate toDate fromAmount toAmount (some 0) =
      TransactionDS.countTransactions fromDate toDate fromAmount toAmount none) ∧
    (TransactionDS.countTransactions fromDate toDate (some 0) (some 0) (some 0)).amount =
      none ∧
    (TransactionDS.countTransactions fromDate toDate (some 0) (some 0) (some 0)).reasonId =
      none := by
  refine ⟨?_, ?_, ?_, ?_, ?_, ?_, ?_, ?_⟩
  · simp [TransactionDS.getTransactions, jsTruthyOptNum]
  · simp [TransactionDS.getTransactions, jsTruthyOptNum]
  · simp [TransactionDS.getTransactions, jsTruthyOptNum]
  · simp [TransactionDS.countTransactions, jsTruthyOptNum]
  · simp [TransactionDS.countTransactions, jsTruthyOptNum]
  · simp [TransactionDS.countTransactions, jsTruthyOptNum]
  · rcases fromDate with _ | fd <;> rcases toDate with _ | td <;>
      simp [TransactionDS.countTransactions, jsTruthyOptNum]
  · rcases fromDate with _ | fd <;> rcases toDate with _ | td <;>
      simp [TransactionDS.countTransactions, jsTruthyOptNum]
